import Mathlib

/-!
Shallow embedding of the SkyMetropolis simulation core: the grid/economy
data model, the tick transition function (`calculateNextDay`), affordability
queries (`canAfford`, `canAffordBuilding`), the goal evaluator
(`checkGoalCompletion`), the Zustand store commands (`placeBuilding`,
`tick`, `claimReward`), and the agent-count logic of the traffic and
pedestrian rendering subsystems.

Integers of the source (JavaScript numbers holding small integers) are
embedded as `Int`; grid coordinates as `Fin GRID_SIZE`.  The grid is a
total map from (row, column) to a tile, mirroring the source's
`grid[y][x]` array-of-arrays in which every coordinate pair holds exactly
one tile.
-/

namespace SkyMetropolis

/-- The closed building enum of the source (a string enum in TypeScript;
`None` denotes an empty tile). -/
inductive BuildingType where
  | None
  | Road
  | Residential
  | Commercial
  | Industrial
  | Park
deriving DecidableEq, Repr

/-- Static per-building configuration, from `config/constants.ts`. -/
structure BuildingConfig where
  cost : Int
  name : String
  popGen : Int
  incomeGen : Int
deriving DecidableEq, Repr

/-- `BUILDINGS` record from `config/constants.ts` (visual-only fields such
as `color` and `description` omitted). -/
def BUILDINGS : BuildingType → BuildingConfig
  | BuildingType.None => ⟨0, "Bulldoze", 0, 0⟩
  | BuildingType.Road => ⟨10, "Road", 0, 0⟩
  | BuildingType.Residential => ⟨100, "House", 5, 0⟩
  | BuildingType.Commercial => ⟨200, "Shop", 0, 15⟩
  | BuildingType.Industrial => ⟨400, "Factory", 0, 40⟩
  | BuildingType.Park => ⟨50, "Park", 1, 0⟩

/-- Grid side length, from `config/constants.ts`. -/
abbrev GRID_SIZE : Nat := 15

/-- Demolition cost, from `config/constants.ts` (also inlined as the
literal `5` in `gameStore.ts`). -/
def DEMOLISH_COST : Int := 5

/-- Residential population cap factor, from `config/constants.ts` (also
inlined as the literal `50` in `lib/simulation.ts`). -/
def MAX_POP_PER_RESIDENTIAL : Int := 50

/-- Zero-housing population decay rate, from `config/constants.ts` (also
inlined as the literal `5` in `lib/simulation.ts`). -/
def NO_HOUSING_DECAY : Int := 5

/-- Starting treasury, from `config/constants.ts`. -/
def INITIAL_MONEY : Int := 1000

/-- One grid cell: immutable coordinates plus the mutable building type. -/
structure TileData where
  x : Nat
  y : Nat
  buildingType : BuildingType
deriving DecidableEq, Repr

/-- The city grid, indexed `grid[y][x]` as in the source (`row = y`,
`col = x`); a total map since every coordinate pair holds exactly one
tile. -/
def Grid : Type := Fin GRID_SIZE → Fin GRID_SIZE → TileData

/-- `CityStats` record. -/
structure CityStats where
  money : Int
  population : Int
  day : Int
deriving DecidableEq, Repr

/-- Goal target kinds accepted by the goal schema. -/
inductive TargetType where
  | money
  | population
  | building_count
deriving DecidableEq, Repr

/-- An AI-generated goal (`AIGoal`); `buildingType` is optional, present
for `building_count` goals. -/
structure AIGoal where
  description : String
  targetType : TargetType
  targetValue : Int
  buildingType : Option BuildingType
  reward : Int
  completed : Bool
deriving DecidableEq, Repr

/-- News feed entry kinds. -/
inductive NewsType where
  | positive
  | negative
  | neutral
deriving DecidableEq, Repr

/-- A news feed entry. -/
structure NewsItem where
  id : String
  text : String
  type : NewsType
deriving DecidableEq, Repr

/-- All 225 tiles of a grid, traversed row-major as the source's nested
`for (y) for (x)` loops do. -/
def gridCells (g : Grid) : List TileData :=
  (List.finRange GRID_SIZE).flatMap fun y =>
    (List.finRange GRID_SIZE).map fun x => g y x

/-- Income contributed by one tile in the tick loop of
`calculateNextDay` (empty tiles are skipped). -/
def tileIncome (t : TileData) : Int :=
  if t.buildingType = BuildingType.None then 0
  else (BUILDINGS t.buildingType).incomeGen

/-- Population growth contributed by one tile in the tick loop of
`calculateNextDay` (empty tiles are skipped). -/
def tilePopGen (t : TileData) : Int :=
  if t.buildingType = BuildingType.None then 0
  else (BUILDINGS t.buildingType).popGen

/-- `dailyIncome` accumulator of `calculateNextDay`. -/
def dailyIncome (g : Grid) : Int :=
  ((gridCells g).map tileIncome).sum

/-- `dailyPopGrowth` accumulator of `calculateNextDay`. -/
def dailyPopGrowth (g : Grid) : Int :=
  ((gridCells g).map tilePopGen).sum

/-- `residentialCount` accumulator of `calculateNextDay`. -/
def residentialCount (g : Grid) : Nat :=
  (gridCells g).countP fun t => t.buildingType = BuildingType.Residential

/-- The tick transition function of `lib/simulation.ts`
(`calculateNextDay`): single pass accumulating income, growth and
residential count, then population cap, then the zero-housing decay
override. -/
def calculateNextDay (currentStats : CityStats) (grid : Grid) : CityStats :=
  let maxPop : Int := (residentialCount grid : Int) * MAX_POP_PER_RESIDENTIAL
  let grown : Int := currentStats.population + dailyPopGrowth grid
  let capped : Int := if grown > maxPop then maxPop else grown
  let newPop : Int :=
    if residentialCount grid = 0 ∧ currentStats.population > 0 then
      max 0 (currentStats.population - NO_HOUSING_DECAY)
    else capped
  { money := currentStats.money + dailyIncome grid
    population := newPop
    day := currentStats.day + 1 }

/-- Affordability query `canAfford` of the modular simulation logic
(second document of `components/UIOverlay.tsx`): a dedicated branch for
demolition, otherwise `money ≥ cost` (the source's `?.cost || 0` is the
identity here since the record is total and `0 || 0 = 0`). -/
def canAfford (currentMoney : Int) (type : BuildingType) : Bool :=
  if type = BuildingType.None then
    decide (currentMoney ≥ DEMOLISH_COST)
  else
    decide (currentMoney ≥ (BUILDINGS type).cost)

/-- Affordability query `canAffordBuilding` of `lib/simulation.ts`: no
demolition branch, plain `money ≥ (BUILDINGS[type]?.cost || 0)`. -/
def canAffordBuilding (currentMoney : Int) (type : BuildingType) : Bool :=
  decide (currentMoney ≥ (BUILDINGS type).cost)

/-- Number of tiles of a grid whose building type is `b`. -/
def countTiles (g : Grid) (b : BuildingType) : Nat :=
  (gridCells g).countP fun t => t.buildingType = b

/-- Goal evaluator `checkGoalCompletion` (second document of
`components/UIOverlay.tsx`): short-circuits on an absent or completed
goal; otherwise sequential threshold checks, the `building_count` branch
guarded by the presence of `goal.buildingType` (a truthy string in the
source's string enum). -/
def checkGoalCompletion (grid : Grid) (stats : CityStats)
    (goal : Option AIGoal) : Bool :=
  match goal with
  | Option.none => false
  | Option.some goal =>
    if goal.completed then false
    else if goal.targetType = TargetType.money ∧ stats.money ≥ goal.targetValue then true
    else if goal.targetType = TargetType.population ∧ stats.population ≥ goal.targetValue then true
    else
      match goal.buildingType with
      | Option.some b =>
        if goal.targetType = TargetType.building_count ∧
            (countTiles grid b : Int) ≥ goal.targetValue then true
        else false
      | Option.none => false

/-- State of the Zustand store (`store/gameStore.ts`) relevant to the
grid, economy and AI slices.  Side-effect services (audio) and pure-UI
fields are not part of the simulation state. -/
structure GameState where
  grid : Grid
  selectedTool : BuildingType
  isPaused : Bool
  gameStarted : Bool
  stats : CityStats
  aiEnabled : Bool
  currentGoal : Option AIGoal
  newsFeed : List NewsItem

/-- Functional update of the source's copy-on-write grid mutation
(`newGrid[y] = [...]; newGrid[y][x] = tile`). -/
def setTile (g : Grid) (x y : Fin GRID_SIZE) (t : TileData) : Grid :=
  fun j i => if j = y ∧ i = x then t else g j i

/-- `addNews` of the AI slice: keep the last 12 entries and append the
incoming one (`[...state.newsFeed.slice(-12), news]`). -/
def addNews (feed : List NewsItem) (news : NewsItem) : List NewsItem :=
  feed.drop (feed.length - 12) ++ [news]

/-- `placeBuilding(x, y)` of the grid slice.  The `newsId` argument
stands for the `Date.now().toString()` identifier the source mints for a
rejection news item. -/
def placeBuilding (s : GameState) (x y : Fin GRID_SIZE)
    (newsId : String) : GameState :=
  if s.isPaused then s
  else
    let tile := s.grid y x
    let config := BUILDINGS s.selectedTool
    if s.selectedTool = BuildingType.None then
      if tile.buildingType ≠ BuildingType.None then
        if s.stats.money ≥ DEMOLISH_COST then
          { s with
            grid := setTile s.grid x y { tile with buildingType := BuildingType.None }
            stats := { s.stats with money := s.stats.money - DEMOLISH_COST } }
        else
          { s with
            newsFeed := addNews s.newsFeed
              ⟨newsId, "Cannot afford demolition.", NewsType.negative⟩ }
      else s
    else
      if tile.buildingType = BuildingType.None then
        if canAffordBuilding s.stats.money s.selectedTool then
          { s with
            grid := setTile s.grid x y { tile with buildingType := s.selectedTool }
            stats := { s.stats with money := s.stats.money - config.cost } }
        else
          { s with
            newsFeed := addNews s.newsFeed
              ⟨newsId, "Insufficient funds for " ++ config.name ++ ".",
                NewsType.negative⟩ }
      else s

/-- `tick()` of the economy slice: no-op while paused, otherwise replace
the stats via `calculateNextDay` and flip the current goal's `completed`
flag when its threshold is newly met against the new stats. -/
def tick (s : GameState) : GameState :=
  if s.isPaused then s
  else
    let newStats := calculateNextDay s.stats s.grid
    let updatedGoal : Option AIGoal :=
      match s.currentGoal with
      | Option.none => Option.none
      | Option.some goal =>
        if s.aiEnabled ∧ goal.completed = false then
          let isMet : Bool :=
            (decide (goal.targetType = TargetType.money) &&
              decide (newStats.money ≥ goal.targetValue)) ||
            (decide (goal.targetType = TargetType.population) &&
              decide (newStats.population ≥ goal.targetValue)) ||
            (match goal.buildingType with
              | Option.some b =>
                decide (goal.targetType = TargetType.building_count) &&
                  decide ((countTiles s.grid b : Int) ≥ goal.targetValue)
              | Option.none => false)
          if isMet then Option.some { goal with completed := true }
          else Option.some goal
        else Option.some goal
    { s with stats := newStats, currentGoal := updatedGoal }

/-- `claimReward()` of the AI slice.  The `newsId` argument stands for
the minted `Date.now().toString()` identifier. -/
def claimReward (s : GameState) (newsId : String) : GameState :=
  match s.currentGoal with
  | Option.some goal =>
    if goal.completed then
      { s with
        stats := { s.stats with money := s.stats.money + goal.reward }
        currentGoal := Option.none
        newsFeed := addNews s.newsFeed
          ⟨newsId,
            "Goal achieved! " ++ toString goal.reward ++ " collected.",
            NewsType.positive⟩ }
    else s
  | Option.none => s

/-- Road tiles of a grid, as collected by `TrafficSystem`. -/
def roadTileCount (g : Grid) : Nat :=
  (gridCells g).countP fun t => t.buildingType = BuildingType.Road

/-- `carCount` of `TrafficSystem`: `Math.min(roadTiles.length, 30)`. -/
def carCount (g : Grid) : Nat :=
  min (roadTileCount g) 30

/-- Number of vehicle instances `TrafficSystem` actually renders: the
component returns `null` when fewer than 2 road tiles exist, otherwise an
instanced mesh of `carCount` cars. -/
def emittedCars (g : Grid) : Nat :=
  if roadTileCount g < 2 then 0 else carCount g

/-- Walkable tiles (Road/Park/empty) of a grid, as collected by
`PopulationSystem`. -/
def walkableCount (g : Grid) : Nat :=
  (gridCells g).countP fun t =>
    t.buildingType = BuildingType.Road ∨ t.buildingType = BuildingType.Park ∨
      t.buildingType = BuildingType.None

/-- `agentCount` of `PopulationSystem`:
`Math.min(Math.floor(population / 2), 300)` (no dependence on the
grid). -/
def pedestrianAgentCount (population : Int) : Int :=
  min (Int.fdiv population 2) 300

/-- Number of pedestrian instances `PopulationSystem` actually renders:
the component returns `null` exactly when `agentCount === 0`, otherwise
an instanced mesh of `agentCount` pedestrians regardless of the walkable
set. -/
def emittedPedestrians (population : Int) (_g : Grid) : Int :=
  if pedestrianAgentCount population = 0 then 0
  else pedestrianAgentCount population

/-- The empty initial grid of `createInitialGrid`. -/
def initialGrid : Grid :=
  fun y x => { x := x, y := y, buildingType := BuildingType.None }

/-- A grid with a single Park tile at (0,0) and empty tiles elsewhere:
zero residential buildings, but positive total `popGen`. -/
def parkGrid : Grid :=
  fun y x =>
    if (y : Nat) = 0 ∧ (x : Nat) = 0 then { x := x, y := y, buildingType := BuildingType.Park }
    else { x := x, y := y, buildingType := BuildingType.None }

/-- A grid whose 225 tiles are all Residential: no road and no walkable
tile anywhere. -/
def allResidentialGrid : Grid :=
  fun y x => { x := x, y := y, buildingType := BuildingType.Residential }

/-- Spec-side restatement of the goal threshold condition, written from
the specification's words for comparison with `checkGoalCompletion`:
money and population compare the stat against the target, and
`building_count` compares the number of tiles whose building type equals
the goal's `buildingType`. -/
def goalThresholdMet (grid : Grid) (stats : CityStats) (goal : AIGoal) : Bool :=
  match goal.targetType with
  | TargetType.money => decide (stats.money ≥ goal.targetValue)
  | TargetType.population => decide (stats.population ≥ goal.targetValue)
  | TargetType.building_count =>
    decide ((((gridCells grid).countP fun t =>
      Option.some t.buildingType = goal.buildingType) : Int) ≥ goal.targetValue)

/-- Store state used to exercise a rejected build: Road tool selected,
empty grid, treasury of 3 (below the Road cost of 10). -/
def poorBuilderState : GameState :=
  { grid := initialGrid, selectedTool := BuildingType.Road, isPaused := false
    gameStarted := true, stats := { money := 3, population := 0, day := 1 }
    aiEnabled := true, currentGoal := Option.none, newsFeed := [] }

/-- Store state used to exercise demolishing an empty tile: bulldoze tool
selected on the fresh empty grid. -/
def idleDemolishState : GameState :=
  { grid := initialGrid, selectedTool := BuildingType.None, isPaused := false
    gameStarted := true, stats := { money := 1000, population := 0, day := 1 }
    aiEnabled := true, currentGoal := Option.none, newsFeed := [] }

/-- The completed money goal of the specification's claim scenario. -/
def moneyGoal2000 : AIGoal :=
  { description := "Reach a 2000 treasury", targetType := TargetType.money
    targetValue := 2000, buildingType := Option.none, reward := 500
    completed := true }

/-- Store state used to exercise `claimReward` on a completed goal. -/
def claimableState : GameState :=
  { grid := initialGrid, selectedTool := BuildingType.Road, isPaused := false
    gameStarted := true, stats := { money := 2000, population := 0, day := 1 }
    aiEnabled := true, currentGoal := Option.some moneyGoal2000, newsFeed := [] }

/-- Store state used to exercise the money invariant: empty grid, Road
tool, no goal. -/
def solventState : GameState :=
  { grid := initialGrid, selectedTool := BuildingType.Road, isPaused := false
    gameStarted := true, stats := { money := 1000, population := 0, day := 1 }
    aiEnabled := true, currentGoal := Option.none, newsFeed := [] }

/-- Every tile contributes a non-negative income to the tick. -/
theorem tileIncome_nonneg (t : TileData) : 0 ≤ tileIncome t := by
  unfold tileIncome
  split
  · norm_num
  · rcases t with ⟨tx, ty, bt⟩
    cases bt <;> norm_num [BUILDINGS]

/-- The accumulated daily income is non-negative. -/
theorem dailyIncome_nonneg (g : Grid) : 0 ≤ dailyIncome g := by
  apply List.sum_nonneg
  intro a ha
  rcases List.mem_map.mp ha with ⟨t, _, rfl⟩
  exact tileIncome_nonneg t

/-- C1: the unconditional cap claim fails: on the empty grid (zero
residential buildings) a population of 100 decays to 95, which exceeds
residentialCount × 50 = 0. -/
theorem C1_cap_counterexample :
    ¬ ((calculateNextDay ⟨0, 100, 1⟩ initialGrid).population ≤
        (residentialCount initialGrid : Int) * MAX_POP_PER_RESIDENTIAL) := by
  decide

/-- C1 (amended): the tick's population is bounded by the residential
cap or by the previous population, whichever is larger; the pure cap
bound residentialCount × 50 holds except in the zero-housing decay case,
where the population only shrinks. -/
theorem C1_population_cap (S : CityStats) (G : Grid) :
    (calculateNextDay S G).population ≤
      max ((residentialCount G : Int) * MAX_POP_PER_RESIDENTIAL) S.population := by
  have hcap : (0 : Int) ≤ (residentialCount G : Int) * MAX_POP_PER_RESIDENTIAL :=
    mul_nonneg (Int.ofNat_nonneg _) (by norm_num [MAX_POP_PER_RESIDENTIAL])
  unfold calculateNextDay
  dsimp only
  by_cases hdecay : residentialCount G = 0 ∧ S.population > 0
  · rw [if_pos hdecay]
    apply max_le
    · exact le_max_of_le_left hcap
    · exact le_max_of_le_right (by simp only [NO_HOUSING_DECAY]; omega)
  · rw [if_neg hdecay]
    by_cases hover : S.population + dailyPopGrowth G >
        (residentialCount G : Int) * MAX_POP_PER_RESIDENTIAL
    · rw [if_pos hover]
      exact le_max_left _ _
    · rw [if_neg hover]
      exact le_max_of_le_left (by omega)

/-- C2: with zero residential buildings and a positive population, the
tick applies the decay rule, yielding max(0, population − 5), even when
non-residential tiles (Park) contribute positive popGen. -/
theorem C2_decay (S : CityStats) (G : Grid)
    (h0 : residentialCount G = 0) (h1 : S.population > 0) :
    (calculateNextDay S G).population = max 0 (S.population - 5) := by
  unfold calculateNextDay
  dsimp only
  rw [if_pos ⟨h0, h1⟩]
  norm_num [NO_HOUSING_DECAY]

theorem C2_decay_witness :
    residentialCount parkGrid = 0 ∧
      (⟨0, 3, 1⟩ : CityStats).population > 0 ∧
      (calculateNextDay ⟨0, 3, 1⟩ parkGrid).population = max 0 (3 - 5) :=
  ⟨by decide, by decide, C2_decay ⟨0, 3, 1⟩ parkGrid (by decide) (by decide)⟩

/-- C3: `canAfford` compares against the fixed demolition cost for the
bulldoze tool and against the building's configured cost otherwise. -/
theorem C3_canAfford (money : Int) :
    (canAfford money BuildingType.None = true ↔ money ≥ DEMOLISH_COST) ∧
    (∀ t : BuildingType, t ≠ BuildingType.None →
      (canAfford money t = true ↔ money ≥ (BUILDINGS t).cost)) := by
  constructor
  · simp [canAfford]
  · intro t ht
    simp [canAfford, ht]

theorem C3_canAfford_witness :
    (canAfford 5 BuildingType.None = true ↔ (5 : Int) ≥ DEMOLISH_COST) ∧
      BuildingType.Road ≠ BuildingType.None ∧
      (canAfford 9 BuildingType.Road = true ↔
        (9 : Int) ≥ (BUILDINGS BuildingType.Road).cost) :=
  ⟨(C3_canAfford 5).1, by decide,
    (C3_canAfford 9).2 BuildingType.Road (by decide)⟩

/-- C4: the goal evaluator returns false on an absent or completed goal;
on a live goal with a positive target it agrees with the spec's
threshold condition for the goal's target type. -/
theorem C4_goal_eval (grid : Grid) (stats : CityStats) (goal : AIGoal) :
    checkGoalCompletion grid stats Option.none = false ∧
    (goal.completed = true →
      checkGoalCompletion grid stats (Option.some goal) = false) ∧
    (goal.completed = false → 0 < goal.targetValue →
      checkGoalCompletion grid stats (Option.some goal) =
        goalThresholdMet grid stats goal) := by
  refine ⟨rfl, ?_, ?_⟩
  · intro h
    simp [checkGoalCompletion, h]
  · intro hc hv
    rcases goal with ⟨d, tt, v, bt, r, c⟩
    simp only at hc hv
    subst hc
    rcases bt with _ | b
    · cases tt <;>
        simp [checkGoalCompletion, goalThresholdMet, countTiles] <;> try omega
    · cases tt <;>
        by_cases hb : ((countTiles grid b : Int) ≥ v) <;>
        simp [checkGoalCompletion, goalThresholdMet, countTiles, hb] <;> try omega

theorem C4_goal_eval_witness :
    (⟨"Reach a 2000 treasury", TargetType.money, 2000, Option.none, 500,
        false⟩ : AIGoal).completed = false ∧
      (0 : Int) < 2000 ∧
      checkGoalCompletion initialGrid ⟨2000, 0, 1⟩
          (Option.some ⟨"Reach a 2000 treasury", TargetType.money, 2000,
            Option.none, 500, false⟩) =
        goalThresholdMet initialGrid ⟨2000, 0, 1⟩
          ⟨"Reach a 2000 treasury", TargetType.money, 2000, Option.none, 500,
            false⟩ :=
  ⟨rfl, by decide,
    (C4_goal_eval initialGrid ⟨2000, 0, 1⟩ _).2.2 rfl (by decide)⟩

/-- C5: when `placeBuilding` fails the affordability check — demolishing
with money below the demolition cost, or building on an empty tile with
money below the tool's cost — a negative news item is appended and the
state is otherwise unchanged (grid and money untouched). -/
theorem C5_reject_atomic (s : GameState) (x y : Fin GRID_SIZE)
    (newsId : String) (hp : s.isPaused = false)
    (hfail :
      (s.selectedTool = BuildingType.None ∧
        (s.grid y x).buildingType ≠ BuildingType.None ∧
        s.stats.money < DEMOLISH_COST) ∨
      (s.selectedTool ≠ BuildingType.None ∧
        (s.grid y x).buildingType = BuildingType.None ∧
        canAffordBuilding s.stats.money s.selectedTool = false)) :
    ∃ item : NewsItem, item.type = NewsType.negative ∧
      placeBuilding s x y newsId =
        { s with newsFeed := addNews s.newsFeed item } := by
  rcases hfail with ⟨ht, hb, hm⟩ | ⟨ht, hb, hm⟩
  · refine ⟨⟨newsId, "Cannot afford demolition.", NewsType.negative⟩, rfl, ?_⟩
    simp [placeBuilding, hp, ht, hb, not_le.mpr hm]
  · refine ⟨⟨newsId,
      "Insufficient funds for " ++ (BUILDINGS s.selectedTool).name ++ ".",
      NewsType.negative⟩, rfl, ?_⟩
    simp [placeBuilding, hp, ht, hb, hm]

theorem C5_reject_atomic_witness :
    poorBuilderState.isPaused = false ∧
      (poorBuilderState.selectedTool ≠ BuildingType.None ∧
        (poorBuilderState.grid 0 0).buildingType = BuildingType.None ∧
        canAffordBuilding poorBuilderState.stats.money
          poorBuilderState.selectedTool = false) ∧
      (∃ item : NewsItem, item.type = NewsType.negative ∧
        placeBuilding poorBuilderState 0 0 "17000" =
          { poorBuilderState with
            newsFeed := addNews poorBuilderState.newsFeed item }) :=
  ⟨rfl, ⟨by decide, by decide, by decide⟩,
    C5_reject_atomic poorBuilderState 0 0 "17000" rfl
      (Or.inr ⟨by decide, by decide, by decide⟩)⟩

/-- C6: demolishing an already empty tile and building over an occupied
tile are complete no-ops: the state (grid, money, news feed included) is
returned unchanged. -/
theorem C6_noop (s : GameState) (x y : Fin GRID_SIZE) (newsId : String)
    (hp : s.isPaused = false) :
    (s.selectedTool = BuildingType.None →
      (s.grid y x).buildingType = BuildingType.None →
      placeBuilding s x y newsId = s) ∧
    (s.selectedTool ≠ BuildingType.None →
      (s.grid y x).buildingType ≠ BuildingType.None →
      placeBuilding s x y newsId = s) := by
  constructor
  · intro ht hb
    simp [placeBuilding, hp, ht, hb]
  · intro ht hb
    simp [placeBuilding, hp, ht, hb]

theorem C6_noop_witness :
    idleDemolishState.isPaused = false ∧
      idleDemolishState.selectedTool = BuildingType.None ∧
      (idleDemolishState.grid 0 0).buildingType = BuildingType.None ∧
      placeBuilding idleDemolishState 0 0 "17001" = idleDemolishState :=
  ⟨rfl, rfl, by decide,
    (C6_noop idleDemolishState 0 0 "17001" rfl).1 rfl (by decide)⟩

/-- C7: money stays non-negative across each store command: affordability
is checked before either deduction in `placeBuilding`, the tick adds the
non-negative daily income, and `claimReward` adds the positive reward. -/
theorem C7_money_nonneg (s : GameState) (x y : Fin GRID_SIZE)
    (newsId : String) (hm : 0 ≤ s.stats.money)
    (hr : ∀ goal : AIGoal, s.currentGoal = Option.some goal → 0 < goal.reward) :
    0 ≤ (placeBuilding s x y newsId).stats.money ∧
    0 ≤ (tick s).stats.money ∧
    0 ≤ (claimReward s newsId).stats.money := by
  refine ⟨?_, ?_, ?_⟩
  · unfold placeBuilding
    dsimp only
    split_ifs with h1 h2 h3 h4 h5 h6
    · exact hm
    · dsimp only
      simp only [DEMOLISH_COST] at h4 ⊢
      omega
    · exact hm
    · exact hm
    · have := of_decide_eq_true h6
      dsimp only
      omega
    · exact hm
    · exact hm
  · unfold tick
    dsimp only
    split_ifs with h1
    · exact hm
    · exact add_nonneg hm (dailyIncome_nonneg s.grid)
  · unfold claimReward
    cases hGoal : s.currentGoal with
    | none => exact hm
    | some goal =>
      dsimp only
      split_ifs with h1
      · have := hr goal hGoal
        dsimp only
        omega
      · exact hm

theorem C7_money_nonneg_witness :
    (0 : Int) ≤ solventState.stats.money ∧
      0 ≤ (placeBuilding solventState 0 0 "17002").stats.money ∧
      0 ≤ (tick solventState).stats.money ∧
      0 ≤ (claimReward solventState "17002").stats.money :=
  ⟨by decide,
    (C7_money_nonneg solventState 0 0 "17002" (by decide)
      fun goal h => nomatch h).1,
    (C7_money_nonneg solventState 0 0 "17002" (by decide)
      fun goal h => nomatch h).2.1,
    (C7_money_nonneg solventState 0 0 "17002" (by decide)
      fun goal h => nomatch h).2.2⟩

/-- C8: `claimReward` is a no-op without a completed goal; on a completed
goal it adds exactly the reward to money, clears the goal, appends one
positive news item, and leaves grid, population and day unchanged. -/
theorem C8_claimReward (s : GameState) (newsId : String) :
    (s.currentGoal = Option.none → claimReward s newsId = s) ∧
    (∀ goal : AIGoal, s.currentGoal = Option.some goal →
      goal.completed = false → claimReward s newsId = s) ∧
    (∀ goal : AIGoal, s.currentGoal = Option.some goal →
      goal.completed = true →
      (claimReward s newsId).stats.money = s.stats.money + goal.reward ∧
      (claimReward s newsId).currentGoal = Option.none ∧
      (claimReward s newsId).grid = s.grid ∧
      (claimReward s newsId).stats.population = s.stats.population ∧
      (claimReward s newsId).stats.day = s.stats.day ∧
      ∃ item : NewsItem, item.type = NewsType.positive ∧
        (claimReward s newsId).newsFeed = addNews s.newsFeed item) := by
  refine ⟨?_, ?_, ?_⟩
  · intro h
    simp [claimReward, h]
  · intro goal h hc
    simp [claimReward, h, hc]
  · intro goal h hc
    refine ⟨?_, ?_, ?_, ?_, ?_,
      ⟨⟨newsId, "Goal achieved! " ++ toString goal.reward ++ " collected.",
        NewsType.positive⟩, rfl, ?_⟩⟩ <;>
      simp [claimReward, h, hc]

theorem C8_claimReward_witness :
    claimableState.currentGoal = Option.some moneyGoal2000 ∧
      moneyGoal2000.completed = true ∧
      (claimReward claimableState "17003").stats.money =
        claimableState.stats.money + moneyGoal2000.reward ∧
      (claimReward claimableState "17003").currentGoal = Option.none ∧
      (claimReward claimableState "17003").grid = claimableState.grid ∧
      (claimReward claimableState "17003").stats.population =
        claimableState.stats.population ∧
      (claimReward claimableState "17003").stats.day =
        claimableState.stats.day ∧
      ∃ item : NewsItem, item.type = NewsType.positive ∧
        (claimReward claimableState "17003").newsFeed =
          addNews claimableState.newsFeed item :=
  ⟨rfl, rfl,
    (C8_claimReward claimableState "17003").2.2 moneyGoal2000 rfl rfl⟩

/-- C9: the claim fails for pedestrians: on an all-Residential grid there
are zero walkable tiles, yet with population 600 the pedestrian subsystem
renders min(⌊600/2⌋, 300) = 300 agents — exceeding the walkable-tile
count and not shutting off below 2 walkable tiles. -/
theorem C9_agents_counterexample :
    walkableCount allResidentialGrid = 0 ∧
      emittedPedestrians 600 allResidentialGrid = 300 ∧
      ¬ (emittedPedestrians 600 allResidentialGrid ≤
          (walkableCount allResidentialGrid : Int)) := by
  refine ⟨by decide, by decide, by decide⟩

/-- C9 (amended): vehicles obey the claim — the traffic subsystem renders
min(roadTileCount, 30) vehicles, never more than the road-tile count, and
renders none when fewer than 2 road tiles exist; pedestrians instead
number min(⌊population/2⌋, 300) whenever that is nonzero, independent of
the walkable-tile count. -/
theorem C9_agent_counts (g : Grid) (population : Int)
    (h : pedestrianAgentCount population ≠ 0) :
    emittedCars g ≤ roadTileCount g ∧
    emittedCars g ≤ 30 ∧
    (roadTileCount g < 2 → emittedCars g = 0) ∧
    (2 ≤ roadTileCount g → emittedCars g = min (roadTileCount g) 30) ∧
    emittedPedestrians population g = min (Int.fdiv population 2) 300 := by
  refine ⟨?_, ?_, ?_, ?_, ?_⟩
  · unfold emittedCars carCount
    split_ifs <;> omega
  · unfold emittedCars carCount
    split_ifs <;> omega
  · intro hr
    unfold emittedCars
    rw [if_pos hr]
  · intro hr
    unfold emittedCars carCount
    rw [if_neg (by omega)]
  · unfold emittedPedestrians
    rw [if_neg h]
    rfl

theorem C9_agent_counts_witness :
    pedestrianAgentCount 600 ≠ 0 ∧
      emittedCars initialGrid ≤ roadTileCount initialGrid ∧
      emittedCars initialGrid ≤ 30 ∧
      (roadTileCount initialGrid < 2 → emittedCars initialGrid = 0) ∧
      (2 ≤ roadTileCount initialGrid →
        emittedCars initialGrid = min (roadTileCount initialGrid) 30) ∧
      emittedPedestrians 600 initialGrid = min (Int.fdiv 600 2) 300 :=
  ⟨by decide, C9_agent_counts initialGrid 600 (by decide)⟩

/-- Updating one tile's building type preserves every tile's coordinates
and every other tile's building type. -/
theorem setTile_frame (g : Grid) (x y : Fin GRID_SIZE) (b : BuildingType)
    (j i : Fin GRID_SIZE) :
    ((setTile g x y { g y x with buildingType := b }) j i).x = (g j i).x ∧
    ((setTile g x y { g y x with buildingType := b }) j i).y = (g j i).y ∧
    (¬(j = y ∧ i = x) →
      ((setTile g x y { g y x with buildingType := b }) j i).buildingType =
        (g j i).buildingType) := by
  unfold setTile
  by_cases h : j = y ∧ i = x
  · rcases h with ⟨rfl, rfl⟩
    simp
  · simp [h]

/-- C10: `placeBuilding` changes at most the building type of the single
addressed tile; all other tiles keep their building type, and every tile
keeps its coordinates. -/
theorem C10_frame (s : GameState) (x y : Fin GRID_SIZE) (newsId : String)
    (j i : Fin GRID_SIZE) :
    ((placeBuilding s x y newsId).grid j i).x = (s.grid j i).x ∧
    ((placeBuilding s x y newsId).grid j i).y = (s.grid j i).y ∧
    (¬(j = y ∧ i = x) →
      ((placeBuilding s x y newsId).grid j i).buildingType =
        (s.grid j i).buildingType) := by
  unfold placeBuilding
  dsimp only
  split_ifs <;>
    first
      | exact ⟨rfl, rfl, fun _ => rfl⟩
      | exact setTile_frame s.grid x y _ j i

theorem C10_frame_witness :
    ¬((1 : Fin GRID_SIZE) = (0 : Fin GRID_SIZE) ∧
        (1 : Fin GRID_SIZE) = (0 : Fin GRID_SIZE)) ∧
      ((placeBuilding solventState 0 0 "17004").grid 1 1).x =
        (solventState.grid 1 1).x ∧
      ((placeBuilding solventState 0 0 "17004").grid 1 1).y =
        (solventState.grid 1 1).y ∧
      ((placeBuilding solventState 0 0 "17004").grid 1 1).buildingType =
        (solventState.grid 1 1).buildingType :=
  ⟨by decide,
    (C10_frame solventState 0 0 "17004" 1 1).1,
    (C10_frame solventState 0 0 "17004" 1 1).2.1,
    (C10_frame solventState 0 0 "17004" 1 1).2.2 (by decide)⟩

end SkyMetropolis
